import Mathlib

/-!
Shallow embedding of the source-line locator of the `tcex-util` repository
(`src/util.py`, `Util.find_line_in_code` lines 23-54 and
`Util.find_line_number` lines 56-86; `src/code_operation.py` holds
character-identical copies of the same two methods, `CodeOperation.find_line_in_code`
lines 18-49 and `CodeOperation.find_line_number` lines 51-81, so one embedding
covers both classes).

Text (Python `str`) is modelled as `List Char`.  The two external collaborators
are parameters of the embedding:
* `m pat line` models the truthiness of `re.match(pat, line)` (the regex engine
  is an external collaborator; `litMatch` below instantiates it for
  metacharacter-free patterns, for which `re.match` is a prefix test);
* `unparse` models the composition `astunparse.unparse(ast.parse code)` used by
  `find_line_in_code`, returning `Except ParseError` because `ast.parse` raises
  `SyntaxError` on unparseable input and the locator has no handler around it.
-/

namespace Tcex

/-- Python text as a list of characters. -/
abbrev Str := List Char

/-- Characters removed by Python `str.strip()` / `str.lstrip()` on ASCII input:
space, tab, newline, carriage return, vertical tab, form feed. -/
def isWS (c : Char) : Bool :=
  c == ' ' || c == '\t' || c == '\n' || c == '\r' || c == '\u000B' || c == '\u000C'

/-- Python `line.lstrip()`. -/
def lstrip (l : Str) : Str := l.dropWhile isWS

/-- Python `line.rstrip()`. -/
def rstrip (l : Str) : Str := (l.reverse.dropWhile isWS).reverse

/-- Python `line.strip()`: strip whitespace from both ends. -/
def strip (l : Str) : Str := rstrip (lstrip l)

/-- Helper for `splitLines`, accumulating the current (reversed) segment. -/
def splitOnNl : Str → Str → List Str
  | [], acc => [acc.reverse]
  | c :: cs, acc =>
    if c == '\n' then acc.reverse :: splitOnNl cs [] else splitOnNl cs (c :: acc)

/-- Python `s.split('\n')` (used at util.py lines 39 and 72): every newline is a
separator, so a trailing newline yields a final empty segment and the empty
string yields `[""]`. -/
def splitLines (s : Str) : List Str := splitOnNl s []

/-- Python `enumerate(lines, start=k)` (util.py line 72 uses `start=1`). -/
def pyEnumerate (start : Nat) : List Str → List (Nat × Str)
  | [] => []
  | l :: rest => (start, l) :: pyEnumerate (start + 1) rest

/-- Python truthiness of a `Pattern | str | None` argument: `None` and the empty
string are falsy, every other string (and every compiled pattern) is truthy. -/
def pyTruthy : Option Str → Bool
  | none => false
  | some s => !s.isEmpty

/-- Initial value of the scan gate, `magnet_on = not trigger_start`
(util.py lines 38 and 71). -/
def magnetInit (trigger_start : Option Str) : Bool := !pyTruthy trigger_start

/-- Python `pat is not None and re.match(pat, line)` for an optional pattern
(guards at util.py lines 42, 52, 75, 84). -/
def optMatch (m : Str → Str → Bool) (pat : Option Str) (line : Str) : Bool :=
  match pat with
  | none => false
  | some p => m p line

/-- Python `line.lstrip()[:1] in ("'", '"')` (negation of the guard at
util.py line 40): true when the first non-whitespace character of the line is a
single or double quote.  An empty or all-whitespace line gives `""[:1] = ""`,
which is not a quote, so such lines are processed. -/
def leadQuote (line : Str) : Bool :=
  match lstrip line with
  | [] => false
  | c :: _ => c == '\'' || c == '"'

/-- Loop of `Util.find_line_number` (util.py lines 72-85), over the numbered
lines still to scan.  Per line: skip if `line.strip()` is falsy; if
`trigger_start` matches, arm the gate and `continue`; if armed and `needle`
matches, return the line number; if `trigger_stop` matches while armed,
`break` (the function then returns `None`); otherwise continue scanning. -/
def findLineNumberAux (m : Str → Str → Bool) (needle : Str)
    (trigger_start trigger_stop : Option Str) :
    Bool → List (Nat × Str) → Option Nat
  | _, [] => none
  | magnet_on, (line_number, line) :: rest =>
    if (strip line).isEmpty then
      findLineNumberAux m needle trigger_start trigger_stop magnet_on rest
    else if optMatch m trigger_start line then
      findLineNumberAux m needle trigger_start trigger_stop true rest
    else if magnet_on && m needle line then
      some line_number
    else if optMatch m trigger_stop line && magnet_on then
      none
    else
      findLineNumberAux m needle trigger_start trigger_stop magnet_on rest

/-- `Util.find_line_number` (util.py lines 56-86): scan the lines of `contents`
numbered from 1, with the gate initially `not trigger_start`. -/
def find_line_number (m : Str → Str → Bool) (needle contents : Str)
    (trigger_start trigger_stop : Option Str) : Option Nat :=
  findLineNumberAux m needle trigger_start trigger_stop (magnetInit trigger_start)
    (pyEnumerate 1 (splitLines contents))

/-- Loop of `Util.find_line_in_code` (util.py lines 39-53), over the lines of
the normalized (unparsed) text.  Per line: skip if the first non-whitespace
character is a quote; if `trigger_start` matches, arm the gate and `continue`;
if armed and `needle` matches, return the stripped line; if `trigger_stop`
matches while armed, `break`. -/
def findLineInCodeAux (m : Str → Str → Bool) (needle : Str)
    (trigger_start trigger_stop : Option Str) : Bool → List Str → Option Str
  | _, [] => none
  | magnet_on, line :: rest =>
    if leadQuote line then
      findLineInCodeAux m needle trigger_start trigger_stop magnet_on rest
    else if optMatch m trigger_start line then
      findLineInCodeAux m needle trigger_start trigger_stop true rest
    else if magnet_on && m needle line then
      some (strip line)
    else if optMatch m trigger_stop line && magnet_on then
      none
    else
      findLineInCodeAux m needle trigger_start trigger_stop magnet_on rest

/-- The `SyntaxError` that Python `ast.parse` raises on unparseable input. -/
structure ParseError where
  msg : Str
deriving DecidableEq

/-- `Util.find_line_in_code` (util.py lines 23-54): normalize `code` through
the external parser/serializer (`astunparse.unparse(ast.parse(code))`,
line 39) and scan its lines.  A parse failure propagates: there is no handler
in the source, hence the `Except` result with the error passed through. -/
def find_line_in_code (m : Str → Str → Bool) (unparse : Str → Except ParseError Str)
    (needle code : Str) (trigger_start trigger_stop : Option Str) :
    Except ParseError (Option Str) :=
  match unparse code with
  | Except.error e => Except.error e
  | Except.ok text =>
      Except.ok (findLineInCodeAux m needle trigger_start trigger_stop
        (magnetInit trigger_start) (splitLines text))

/-- `re.match` for a pattern with no regex metacharacters: anchored at the
start of the line, not required to consume it, hence a prefix test. -/
def litMatch (pat line : Str) : Bool := pat.isPrefixOf line

/-- A parser/serializer collaborator that accepts every input unchanged
(used to exercise the scan through `find_line_in_code`). -/
def idUnparse : Str → Except ParseError Str := fun s => Except.ok s

/-- Modelled from the spec's words (sections 4.2 and 8, scenario A): the
0-based index of the first line that is non-blank and matches `needle`,
counting every line — including blank lines, which are skipped for matching
but still consume an index. -/
def specFirstMatchIdx (m : Str → Str → Bool) (needle : Str) : List Str → Option Nat
  | [] => none
  | l :: rest =>
    if !(strip l).isEmpty && m needle l then some 0
    else (specFirstMatchIdx m needle rest).map (· + 1)

/-- Modelled from the spec's words: the 1-based line number of the first
non-blank matching line, blank lines counted. -/
def specFirstMatchLineNumber (m : Str → Str → Bool) (needle : Str)
    (lines : List Str) : Option Nat :=
  (specFirstMatchIdx m needle lines).map (· + 1)

/-- Trace of the scan gate `magnet_on`: both loops (util.py lines 39-53 and
72-85) have the same skeleton up to the skip predicate (`leadQuote` for
`find_line_in_code`, blank-line for `find_line_number`), so the gate evolution
is recorded once, parameterized by `skip`.  The trace lists the gate value in
effect for each processed line (after the arming update of that line) and ends
where the loop ends: at a needle return, at a stop-trigger break, or when the
lines run out. -/
def gateScan (m : Str → Str → Bool) (skip : Str → Bool) (needle : Str)
    (trigger_start trigger_stop : Option Str) : Bool → List Str → List Bool
  | _, [] => []
  | magnet_on, line :: rest =>
    if skip line then
      magnet_on :: gateScan m skip needle trigger_start trigger_stop magnet_on rest
    else if optMatch m trigger_start line then
      true :: gateScan m skip needle trigger_start trigger_stop true rest
    else if magnet_on && m needle line then
      [magnet_on]
    else if optMatch m trigger_stop line && magnet_on then
      [magnet_on]
    else
      magnet_on :: gateScan m skip needle trigger_start trigger_stop magnet_on rest

/-- Once the gate is armed it stays armed: consecutive gate values in the trace
only ever go from `false` to `true`, never back. -/
theorem gateScan_chain (m : Str → Str → Bool) (skip : Str → Bool) (needle : Str)
    (trigger_start trigger_stop : Option Str) :
    ∀ (lines : List Str) (b : Bool),
      List.Chain' (fun a c => a = true → c = true)
        (b :: gateScan m skip needle trigger_start trigger_stop b lines) := by
  intro lines
  induction lines with
  | nil => intro b; simp [gateScan]
  | cons line rest ih =>
    intro b
    simp only [gateScan]
    by_cases h1 : skip line
    · simp only [h1, if_true]
      exact List.chain'_cons.mpr ⟨fun h => h, ih b⟩
    · simp only [h1, if_false, Bool.false_eq_true]
      by_cases h2 : optMatch m trigger_start line
      · simp only [h2, if_true]
        exact List.chain'_cons.mpr ⟨fun _ => rfl, ih true⟩
      · simp only [h2, if_false, Bool.false_eq_true]
        by_cases h3 : b && m needle line
        · simp only [h3, if_true]
          exact List.chain'_cons.mpr ⟨fun h => h, List.chain'_singleton b⟩
        · simp only [h3, if_false, Bool.false_eq_true]
          by_cases h4 : optMatch m trigger_stop line && b
          · simp only [h4, if_true]
            exact List.chain'_cons.mpr ⟨fun h => h, List.chain'_singleton b⟩
          · simp only [h4, if_false, Bool.false_eq_true]
            exact List.chain'_cons.mpr ⟨fun h => h, ih b⟩

end Tcex

namespace Tcex

/-- C1 fails as stated: the gate's initial value is the Python truthiness test
`not trigger_start` (util.py lines 38 and 71), so for the supplied empty
pattern `trigger_start = ""` the gate starts armed even though a start trigger
was supplied — the claimed "armed iff no trigger_start supplied" is not an
equivalence. -/
theorem C1_counterexample :
    magnetInit (some ([] : Str)) = true ∧ some ([] : Str) ≠ none :=
  ⟨rfl, by simp⟩

/-- C1 (amended): the gate starts armed iff the `trigger_start` argument is
absent or the empty (Python-falsy) pattern; during the scan the gate never
transitions from armed to disarmed (the trace of `magnet_on` values is
monotone); and from the armed state a line matching `trigger_stop` (that is
eligible and matches neither `trigger_start` nor `needle`) terminates the scan.
`magnetInit` and the loop instrumented by `gateScan` are exactly the state of
both `find_line_in_code` and `find_line_number`. -/
theorem C1_gate_invariant (m : Str → Str → Bool) (skip : Str → Bool) (needle : Str)
    (trigger_start trigger_stop : Option Str) (lines : List Str) :
    (magnetInit trigger_start = true ↔
      (trigger_start = none ∨ trigger_start = some [])) ∧
    List.Chain' (fun a c => a = true → c = true)
      (magnetInit trigger_start ::
        gateScan m skip needle trigger_start trigger_stop (magnetInit trigger_start) lines) ∧
    (∀ (line : Str) (rest : List Str), skip line = false →
      optMatch m trigger_start line = false → m needle line = false →
      optMatch m trigger_stop line = true →
      gateScan m skip needle trigger_start trigger_stop true (line :: rest) = [true]) := by
  refine ⟨?_, gateScan_chain m skip needle trigger_start trigger_stop lines _, ?_⟩
  · match trigger_start with
    | none => simp [magnetInit, pyTruthy]
    | some [] => simp [magnetInit, pyTruthy]
    | some (c :: cs) => simp [magnetInit, pyTruthy]
  · intro line rest h1 h2 h3 h4
    simp [gateScan, h1, h2, h3, h4]

/-- Instance of the amended C1's stop-trigger clause: from the armed state, a
line matching only the stop trigger ends the gate trace at once. -/
theorem C1_witness :
    gateScan litMatch (fun l => (strip l).isEmpty) "x".data none (some "s".data) true
      ["s".data] = [true] :=
  (C1_gate_invariant litMatch (fun l => (strip l).isEmpty) "x".data none
      (some "s".data) []).2.2 "s".data [] (by decide) (by decide) (by decide) (by decide)

/-- C8: a parse failure of the `code` argument propagates out of
`find_line_in_code` unchanged; it is never caught and never turned into a
`none` result. -/
theorem C8_parse_error_propagates (m : Str → Str → Bool)
    (unparse : Str → Except ParseError Str) (needle code : Str)
    (trigger_start trigger_stop : Option Str) (e : ParseError)
    (h : unparse code = Except.error e) :
    find_line_in_code m unparse needle code trigger_start trigger_stop
      = Except.error e := by
  simp [find_line_in_code, h]

/-- C8 at a concrete input: a collaborator that rejects `"def ("` with a
`SyntaxError` makes `find_line_in_code` return exactly that error. -/
theorem C8_witness :
    find_line_in_code litMatch (fun _ => Except.error ⟨"invalid syntax".data⟩)
      "x".data "def (".data none none = Except.error ⟨"invalid syntax".data⟩ :=
  C8_parse_error_propagates _ _ _ _ _ _ _ rfl

/-- With both triggers absent, the loop of `find_line_number` started armed at
offset `k` finds the first non-blank matching line, every line counted. -/
theorem findLineNumberAux_no_triggers (m : Str → Str → Bool) (needle : Str) :
    ∀ (lines : List Str) (k : Nat),
      findLineNumberAux m needle none none true (pyEnumerate k lines)
        = (specFirstMatchIdx m needle lines).map (· + k) := by
  intro lines
  induction lines with
  | nil => intro k; simp [pyEnumerate, findLineNumberAux, specFirstMatchIdx]
  | cons l rest ih =>
    intro k
    simp only [pyEnumerate, findLineNumberAux, specFirstMatchIdx, optMatch]
    by_cases hb : (strip l).isEmpty
    · rw [if_pos hb, ih (k + 1)]
      have : (!(strip l).isEmpty && m needle l) = false := by simp [hb]
      rw [this, if_neg (by simp)]
      cases h : specFirstMatchIdx m needle rest
      · simp [h]
      · simp [h]; omega
    · rw [if_neg hb]
      by_cases hm : m needle l
      · have : (!(strip l).isEmpty && m needle l) = true := by
          simp [hb, hm]
        rw [this, if_pos rfl]
        simp [hm]
      · have hcond : (!(strip l).isEmpty && m needle l) = false := by simp [hm]
        rw [hcond, if_neg (by simp)]
        simp only [Bool.false_eq_true, if_false, Bool.and_false]
        have hm2 : (true && m needle l) = false := by simp [hm]
        rw [hm2, if_neg (by simp), if_neg (by simp), ih (k + 1)]
        cases h : specFirstMatchIdx m needle rest
        · simp [h]
        · simp [h]; omega

/-- C2: with no triggers, `find_line_number` returns exactly the 1-based number
of the first non-blank line matching `needle`, counting every line of the
input including the blank lines skipped for matching; in particular, for
contents `"a\nfoo\nb\nbar\n"` and needle `"bar"` it returns 4 (scenario A). -/
theorem C2_line_numbering (m : Str → Str → Bool) (needle contents : Str) :
    find_line_number m needle contents none none
      = specFirstMatchLineNumber m needle (splitLines contents) ∧
    find_line_number litMatch "bar".data "a\nfoo\nb\nbar\n".data none none
      = some 4 := by
  constructor
  · rw [find_line_number, specFirstMatchLineNumber]
    exact findLineNumberAux_no_triggers m needle (splitLines contents) 1
  · decide

/-- C3: in both loops, once the gate is armed, an eligible line that matches a
supplied `trigger_stop` (and matches neither `trigger_start` nor `needle`)
makes the scan return `none` whatever lines follow — in particular when a line
matching `needle` comes later; concretely, for contents `"stp\nbar\n"` with
needle `"bar"` and stop trigger `"stp"`, `find_line_number` returns `none`
although line 2 matches the needle. -/
theorem C3_stop_while_armed (m : Str → Str → Bool) (needle : Str)
    (trigger_start : Option Str) (t : Str) :
    (∀ (n : Nat) (line : Str) (rest : List (Nat × Str)),
      (strip line).isEmpty = false → optMatch m trigger_start line = false →
      m needle line = false → m t line = true →
      findLineNumberAux m needle trigger_start (some t) true ((n, line) :: rest)
        = none) ∧
    (∀ (line : Str) (rest : List Str),
      leadQuote line = false → optMatch m trigger_start line = false →
      m needle line = false → m t line = true →
      findLineInCodeAux m needle trigger_start (some t) true (line :: rest)
        = none) ∧
    find_line_number litMatch "bar".data "stp\nbar\n".data none (some "stp".data)
      = none := by
  refine ⟨?_, ?_, by decide⟩
  · intro n line rest h1 h2 h3 h4
    have h4x : optMatch m (some t) line = true := h4
    simp [findLineNumberAux, h1, h2, h3, h4x]
  · intro line rest h1 h2 h3 h4
    have h4x : optMatch m (some t) line = true := h4
    simp [findLineInCodeAux, h1, h2, h3, h4x]

/-- C3 at a concrete armed state: the stop line ends the scan with `none` even
though the very next line matches the needle. -/
theorem C3_witness :
    findLineNumberAux litMatch "bar".data none (some "stp".data) true
      [(1, "stp".data), (2, "bar".data)] = none :=
  (C3_stop_while_armed litMatch "bar".data none "stp".data).1 1 "stp".data
    [(2, "bar".data)] (by decide) (by decide) (by decide) (by decide)

/-- C4: in both loops an eligible line matching `trigger_start` is consumed by
the `continue` before the needle and stop tests: the scan goes on with the
gate armed and the outcome does not depend on whether that line also matches
`needle` or `trigger_stop`.  Concretely: with trigger and needle both `"foo"`
on contents `"foo\n"` the result is `none` (the trigger line is never
returned), and with `trigger_start = trigger_stop = "go"` on `"go\nbar"` the
trigger line does not fire the stop trigger and line 2 is found. -/
theorem C4_trigger_line_consumed (m : Str → Str → Bool) (needle : Str)
    (trigger_start trigger_stop : Option Str) :
    (∀ (b : Bool) (n : Nat) (line : Str) (rest : List (Nat × Str)),
      (strip line).isEmpty = false → optMatch m trigger_start line = true →
      findLineNumberAux m needle trigger_start trigger_stop b ((n, line) :: rest)
        = findLineNumberAux m needle trigger_start trigger_stop true rest) ∧
    (∀ (b : Bool) (line : Str) (rest : List Str),
      leadQuote line = false → optMatch m trigger_start line = true →
      findLineInCodeAux m needle trigger_start trigger_stop b (line :: rest)
        = findLineInCodeAux m needle trigger_start trigger_stop true rest) ∧
    find_line_number litMatch "foo".data "foo\n".data (some "foo".data) none
      = none ∧
    find_line_number litMatch "bar".data "go\nbar".data (some "go".data)
      (some "go".data) = some 2 := by
  refine ⟨?_, ?_, by decide, by decide⟩
  · intro b n line rest h1 h2
    simp [findLineNumberAux, h1, h2]
  · intro b line rest h1 h2
    simp [findLineInCodeAux, h1, h2]

/-- C4 at a concrete input: a line matching both the start trigger and the
needle is consumed, so the scan of just that line finds nothing. -/
theorem C4_witness :
    findLineNumberAux litMatch "foo".data (some "foo".data) none false
      [(1, "foo".data)]
      = findLineNumberAux litMatch "foo".data (some "foo".data) none true [] :=
  (C4_trigger_line_consumed litMatch "foo".data (some "foo".data) none).1 false 1
    "foo".data [] (by decide) (by decide)

/-- C5: in both loops, while the gate is disarmed an eligible line matching
`trigger_stop` (and not `trigger_start`) is ignored — the scan continues past
it unchanged; concretely, on `"stp\nstart\nndl"` with start trigger
`"start"` and stop trigger `"stp"`, the stop line 1 is passed over and the
needle on line 3, after the arming line, is still found. -/
theorem C5_stop_ignored_while_disarmed (m : Str → Str → Bool) (needle : Str)
    (trigger_start trigger_stop : Option Str) :
    (∀ (n : Nat) (line : Str) (rest : List (Nat × Str)),
      (strip line).isEmpty = false → optMatch m trigger_start line = false →
      optMatch m trigger_stop line = true →
      findLineNumberAux m needle trigger_start trigger_stop false ((n, line) :: rest)
        = findLineNumberAux m needle trigger_start trigger_stop false rest) ∧
    (∀ (line : Str) (rest : List Str),
      leadQuote line = false → optMatch m trigger_start line = false →
      optMatch m trigger_stop line = true →
      findLineInCodeAux m needle trigger_start trigger_stop false (line :: rest)
        = findLineInCodeAux m needle trigger_start trigger_stop false rest) ∧
    find_line_number litMatch "ndl".data "stp\nstart\nndl".data
      (some "start".data) (some "stp".data) = some 3 := by
  refine ⟨?_, ?_, by decide⟩
  · intro n line rest h1 h2 _h3
    simp [findLineNumberAux, h1, h2]
  · intro line rest h1 h2 _h3
    simp [findLineInCodeAux, h1, h2]

/-- A numbered-line member of `pyEnumerate k lines` carries a line of `lines`. -/
theorem pyEnumerate_mem_snd :
    ∀ (k : Nat) (lines : List Str) (x : Nat × Str),
      x ∈ pyEnumerate k lines → x.2 ∈ lines := by
  intro k lines
  induction lines generalizing k with
  | nil => intro x hx; simp [pyEnumerate] at hx
  | cons l rest ih =>
    intro x hx
    simp only [pyEnumerate, List.mem_cons] at hx
    rcases hx with h | h
    · simp [h]
    · exact List.mem_cons_of_mem _ (ih (k + 1) x h)

/-- If the start trigger matches no scanned line, the loop of
`find_line_number` never leaves the disarmed state and returns `none`. -/
theorem findLineNumberAux_never_armed (m : Str → Str → Bool) (needle p : Str)
    (trigger_stop : Option Str) :
    ∀ (pairs : List (Nat × Str)), (∀ x ∈ pairs, m p x.2 = false) →
      findLineNumberAux m needle (some p) trigger_stop false pairs = none := by
  intro pairs
  induction pairs with
  | nil => intro _; simp [findLineNumberAux]
  | cons x rest ih =>
    intro h
    obtain ⟨n, line⟩ := x
    have hx : m p line = false := h (n, line) (by simp)
    have hts : optMatch m (some p) line = false := hx
    have hrest : ∀ y ∈ rest, m p y.2 = false :=
      fun y hy => h y (List.mem_cons_of_mem _ hy)
    by_cases hb : (strip line).isEmpty <;>
      simp [findLineNumberAux, hb, hts, ih hrest]

/-- If the start trigger matches no scanned line, the loop of
`find_line_in_code` never leaves the disarmed state and returns `none`. -/
theorem findLineInCodeAux_never_armed (m : Str → Str → Bool) (needle p : Str)
    (trigger_stop : Option Str) :
    ∀ (lines : List Str), (∀ l ∈ lines, m p l = false) →
      findLineInCodeAux m needle (some p) trigger_stop false lines = none := by
  intro lines
  induction lines with
  | nil => intro _; simp [findLineInCodeAux]
  | cons line rest ih =>
    intro h
    have hx : m p line = false := h line (by simp)
    have hts : optMatch m (some p) line = false := hx
    have hrest : ∀ l ∈ rest, m p l = false :=
      fun l hl => h l (List.mem_cons_of_mem _ hl)
    by_cases hb : leadQuote line <;>
      simp [findLineInCodeAux, hb, hts, ih hrest]

/-- C6: if a non-empty `trigger_start` is supplied and matches no line of the
input, both variants return `none` even when lines matching `needle` are
present (the gate stays disarmed for the whole scan); and scenario B: on
contents `"a\nfoo\nb\nbar\n"` with start trigger `"foo"` and needle `"a"`,
`find_line_number` returns `none` because line 1 precedes the trigger and is
never retested. -/
theorem C6_start_never_matches (m : Str → Str → Bool) (needle : Str) (c : Char)
    (p : Str) (trigger_stop : Option Str) (contents : Str)
    (unparse : Str → Except ParseError Str) (code text : Str)
    (h1 : ∀ l ∈ splitLines contents, m (c :: p) l = false)
    (hu : unparse code = Except.ok text)
    (h2 : ∀ l ∈ splitLines text, m (c :: p) l = false) :
    find_line_number m needle contents (some (c :: p)) trigger_stop = none ∧
    find_line_in_code m unparse needle code (some (c :: p)) trigger_stop
      = Except.ok none ∧
    find_line_number litMatch "a".data "a\nfoo\nb\nbar\n".data
      (some "foo".data) none = none := by
  refine ⟨?_, ?_, by decide⟩
  · rw [find_line_number]
    exact findLineNumberAux_never_armed m needle (c :: p) trigger_stop _
      (fun x hx => h1 x.2 (pyEnumerate_mem_snd 1 _ x hx))
  · simp only [find_line_in_code, hu]
    rw [show magnetInit (some (c :: p)) = false from rfl,
      findLineInCodeAux_never_armed m needle (c :: p) trigger_stop _ h2]

/-- C6 at a concrete input: a start trigger matching nothing makes both
variants come back empty although the needle text is present. -/
theorem C6_witness :
    find_line_number litMatch "b".data "a\nb".data (some "zz".data) none = none ∧
    find_line_in_code litMatch idUnparse "b".data "a\nb".data
      (some "zz".data) none = Except.ok none := by
  have h := C6_start_never_matches litMatch "b".data 'z' "z".data none
    "a\nb".data idUnparse "a\nb".data "a\nb".data (by decide) rfl (by decide)
  exact ⟨h.1, h.2.1⟩

/-- If no eligible non-trigger line matches `needle`, the loop of
`find_line_number` returns `none` from either gate state. -/
theorem findLineNumberAux_no_needle (m : Str → Str → Bool) (needle : Str)
    (trigger_start trigger_stop : Option Str) :
    ∀ (pairs : List (Nat × Str)) (b : Bool),
      (∀ x ∈ pairs, (strip x.2).isEmpty = false →
        optMatch m trigger_start x.2 = false → m needle x.2 = false) →
      findLineNumberAux m needle trigger_start trigger_stop b pairs = none := by
  intro pairs
  induction pairs with
  | nil => intro b _; simp [findLineNumberAux]
  | cons x rest ih =>
    intro b h
    obtain ⟨n, line⟩ := x
    have hrest : ∀ y ∈ rest, (strip y.2).isEmpty = false →
        optMatch m trigger_start y.2 = false → m needle y.2 = false :=
      fun y hy => h y (List.mem_cons_of_mem _ hy)
    by_cases hb : (strip line).isEmpty
    · simp [findLineNumberAux, hb, ih _ hrest]
    · by_cases hts : optMatch m trigger_start line
      · simp [findLineNumberAux, hb, hts, ih _ hrest]
      · have hb2 : (strip line).isEmpty = false := by simpa using hb
        have hts2 : optMatch m trigger_start line = false := by simpa using hts
        have hx : m needle line = false := h (n, line) (by simp) hb2 hts2
        by_cases hstop : optMatch m trigger_stop line && b <;>
          simp [findLineNumberAux, hb, hts, hx, hstop, ih _ hrest]

/-- If no eligible non-trigger line matches `needle`, the loop of
`find_line_in_code` returns `none` from either gate state. -/
theorem findLineInCodeAux_no_needle (m : Str → Str → Bool) (needle : Str)
    (trigger_start trigger_stop : Option Str) :
    ∀ (lines : List Str) (b : Bool),
      (∀ l ∈ lines, leadQuote l = false →
        optMatch m trigger_start l = false → m needle l = false) →
      findLineInCodeAux m needle trigger_start trigger_stop b lines = none := by
  intro lines
  induction lines with
  | nil => intro b _; simp [findLineInCodeAux]
  | cons line rest ih =>
    intro b h
    have hrest : ∀ l ∈ rest, leadQuote l = false →
        optMatch m trigger_start l = false → m needle l = false :=
      fun l hl => h l (List.mem_cons_of_mem _ hl)
    by_cases hb : leadQuote line
    · simp [findLineInCodeAux, hb, ih _ hrest]
    · by_cases hts : optMatch m trigger_start line
      · simp [findLineInCodeAux, hb, hts, ih _ hrest]
      · have hb2 : leadQuote line = false := by simpa using hb
        have hts2 : optMatch m trigger_start line = false := by simpa using hts
        have hx : m needle line = false := h line (by simp) hb2 hts2
        by_cases hstop : optMatch m trigger_stop line && b <;>
          simp [findLineInCodeAux, hb, hts, hx, hstop, ih _ hrest]

/-- C7: when no eligible non-trigger line of the input matches `needle`, both
variants return the explicit absent result — `none` for `find_line_number`,
`Except.ok none` (found nothing, no error) for `find_line_in_code` — rather
than failing. -/
theorem C7_absent_not_error (m : Str → Str → Bool) (needle : Str)
    (trigger_start trigger_stop : Option Str) (contents : Str)
    (unparse : Str → Except ParseError Str) (code text : Str)
    (h1 : ∀ l ∈ splitLines contents, (strip l).isEmpty = false →
      optMatch m trigger_start l = false → m needle l = false)
    (hu : unparse code = Except.ok text)
    (h2 : ∀ l ∈ splitLines text, leadQuote l = false →
      optMatch m trigger_start l = false → m needle l = false) :
    find_line_number m needle contents trigger_start trigger_stop = none ∧
    find_line_in_code m unparse needle code trigger_start trigger_stop
      = Except.ok none := by
  constructor
  · rw [find_line_number]
    exact findLineNumberAux_no_needle m needle trigger_start trigger_stop _ _
      (fun x hx => h1 x.2 (pyEnumerate_mem_snd 1 _ x hx))
  · simp only [find_line_in_code, hu]
    rw [findLineInCodeAux_no_needle m needle trigger_start trigger_stop _ _ h2]

/-- C7 at a concrete input: a needle matching nothing gives the absent result
in both variants. -/
theorem C7_witness :
    find_line_number litMatch "zzz".data "a\nfoo".data none none = none ∧
    find_line_in_code litMatch idUnparse "zzz".data "a\nfoo".data none none
      = Except.ok none :=
  C7_absent_not_error litMatch "zzz".data none none "a\nfoo".data idUnparse
    "a\nfoo".data "a\nfoo".data (by decide) rfl (by decide)

/-- C10: on each line the needle test precedes the stop-trigger test, so an
eligible line that matches both `needle` and `trigger_stop` (and not
`trigger_start`) while the gate is armed is returned — the scan does not
terminate with the absent result; concretely, `find_line_number` on contents
`"x\n"` with needle and stop trigger both `"x"` returns line 1. -/
theorem C10_needle_beats_stop (m : Str → Str → Bool) (needle : Str)
    (trigger_start trigger_stop : Option Str) :
    (∀ (n : Nat) (line : Str) (rest : List (Nat × Str)),
      (strip line).isEmpty = false → optMatch m trigger_start line = false →
      m needle line = true → optMatch m trigger_stop line = true →
      findLineNumberAux m needle trigger_start trigger_stop true ((n, line) :: rest)
        = some n) ∧
    (∀ (line : Str) (rest : List Str),
      leadQuote line = false → optMatch m trigger_start line = false →
      m needle line = true → optMatch m trigger_stop line = true →
      findLineInCodeAux m needle trigger_start trigger_stop true (line :: rest)
        = some (strip line)) ∧
    find_line_number litMatch "x".data "x\n".data none (some "x".data)
      = some 1 := by
  refine ⟨?_, ?_, by decide⟩
  · intro n line rest h1 h2 h3 _h4
    simp [findLineNumberAux, h1, h2, h3]
  · intro line rest h1 h2 h3 _h4
    simp [findLineInCodeAux, h1, h2, h3]

/-- C10 at a concrete armed state: a line matching needle and stop trigger at
once is returned. -/
theorem C10_witness :
    findLineNumberAux litMatch "x".data none (some "x".data) true
      [(1, "x".data)] = some 1 :=
  (C10_needle_beats_stop litMatch "x".data none (some "x".data)).1 1 "x".data []
    (by decide) (by decide) (by decide) (by decide)

/-- The head of `dropWhile p l`, when there is one, fails `p`. -/
theorem dropWhile_head_not (p : Char → Bool) :
    ∀ (l : Str) (c : Char), (l.dropWhile p).head? = some c → p c = false := by
  intro l
  induction l with
  | nil => intro c h; simp [List.dropWhile] at h
  | cons a as ih =>
    intro c h
    rw [List.dropWhile_cons] at h
    by_cases ha : p a
    · rw [if_pos ha] at h; exact ih c h
    · rw [if_neg ha] at h
      simp only [List.head?_cons, Option.some.injEq] at h
      subst h
      simpa using ha

/-- `dropWhile` is idempotent. -/
theorem dropWhile_twice (p : Char → Bool) (l : Str) :
    (l.dropWhile p).dropWhile p = l.dropWhile p := by
  cases h : l.dropWhile p with
  | nil => simp
  | cons c t =>
    have hc : p c = false := dropWhile_head_not p l c (by simp [h])
    rw [List.dropWhile_cons, if_neg (by simp [hc])]

/-- `rstrip l` is an initial segment of `l`: the stripped tail can be put
back. -/
theorem rstrip_append (l : Str) : ∃ u, rstrip l ++ u = l := by
  refine ⟨(l.reverse.takeWhile isWS).reverse, ?_⟩
  calc (l.reverse.dropWhile isWS).reverse ++ (l.reverse.takeWhile isWS).reverse
      = (l.reverse.takeWhile isWS ++ l.reverse.dropWhile isWS).reverse := by
        rw [List.reverse_append]
    _ = l.reverse.reverse := by rw [List.takeWhile_append_dropWhile]
    _ = l := List.reverse_reverse l

/-- The first character of `strip l` is the first character of `lstrip l`. -/
theorem strip_head (l : Str) (c : Char) (h : (strip l).head? = some c) :
    (lstrip l).head? = some c := by
  obtain ⟨u, hu⟩ := rstrip_append (lstrip l)
  rw [strip] at h
  cases hs : rstrip (lstrip l) with
  | nil => rw [hs] at h; simp at h
  | cons c0 t =>
    rw [hs] at h
    simp only [List.head?_cons, Option.some.injEq] at h
    rw [← hu, hs]
    simp [h]

/-- Any `some` result of the `find_line_in_code` loop is the stripped text of
a scanned line whose first non-whitespace character is not a quote and which
matches `needle`. -/
theorem findLineInCodeAux_some (m : Str → Str → Bool) (needle : Str)
    (trigger_start trigger_stop : Option Str) :
    ∀ (lines : List Str) (b : Bool) (s : Str),
      findLineInCodeAux m needle trigger_start trigger_stop b lines = some s →
      ∃ line ∈ lines, leadQuote line = false ∧ m needle line = true ∧
        s = strip line := by
  intro lines
  induction lines with
  | nil => intro b s h; simp [findLineInCodeAux] at h
  | cons line rest ih =>
    intro b s h
    simp only [findLineInCodeAux] at h
    by_cases h1 : leadQuote line
    · rw [if_pos h1] at h
      obtain ⟨l, hl, hq, hm, hs⟩ := ih b s h
      exact ⟨l, List.mem_cons_of_mem _ hl, hq, hm, hs⟩
    · rw [if_neg h1] at h
      by_cases h2 : optMatch m trigger_start line
      · rw [if_pos h2] at h
        obtain ⟨l, hl, hq, hm, hs⟩ := ih true s h
        exact ⟨l, List.mem_cons_of_mem _ hl, hq, hm, hs⟩
      · rw [if_neg h2] at h
        by_cases h3 : b && m needle line
        · rw [if_pos h3] at h
          refine ⟨line, List.mem_cons_self line rest, by simpa using h1,
            ((Bool.and_eq_true _ _).mp h3).2, ?_⟩
          exact (Option.some.inj h).symm
        · rw [if_neg h3] at h
          by_cases h4 : optMatch m trigger_stop line && b
          · rw [if_pos h4] at h; exact absurd h (by simp)
          · rw [if_neg h4] at h
            obtain ⟨l, hl, hq, hm, hs⟩ := ih b s h
            exact ⟨l, List.mem_cons_of_mem _ hl, hq, hm, hs⟩

/-- C9: every non-absent result of `find_line_in_code` carries no leading and
no trailing whitespace and does not begin with a single or double quote; it is
the stripped text of a scanned line of the normalized code whose first
non-whitespace character is not a quote (quote-led lines are skipped and can
never be returned). -/
theorem C9_result_stripped_unquoted (m : Str → Str → Bool)
    (unparse : Str → Except ParseError Str) (needle code : Str)
    (trigger_start trigger_stop : Option Str) (s : Str)
    (h : find_line_in_code m unparse needle code trigger_start trigger_stop
      = Except.ok (some s)) :
    s.dropWhile isWS = s ∧ s.reverse.dropWhile isWS = s.reverse ∧
    (∀ c, s.head? = some c → c ≠ '\'' ∧ c ≠ '"') ∧
    (∃ text, unparse code = Except.ok text ∧
      ∃ line ∈ splitLines text, leadQuote line = false ∧ m needle line = true ∧
        s = strip line) := by
  cases hu : unparse code with
  | error e => rw [find_line_in_code, hu] at h; exact absurd h (by simp)
  | ok text =>
    rw [find_line_in_code, hu] at h
    have haux := Except.ok.inj h
    obtain ⟨line, hline, hq, hm, hs⟩ :=
      findLineInCodeAux_some m needle trigger_start trigger_stop
        (splitLines text) (magnetInit trigger_start) s haux
    subst hs
    refine ⟨?_, ?_, ?_, text, rfl, line, hline, hq, hm, rfl⟩
    · cases hh : strip line with
      | nil => simp
      | cons c t =>
        have hc0 : (lstrip line).head? = some c :=
          strip_head line c (by simp [hh])
        have hc : isWS c = false := dropWhile_head_not isWS line c hc0
        simp [List.dropWhile_cons, hc]
    · have hb : (strip line).reverse = (lstrip line).reverse.dropWhile isWS := by
        rw [strip, rstrip, List.reverse_reverse]
      rw [hb, dropWhile_twice]
    · intro c hc
      have hh : (lstrip line).head? = some c := strip_head line c hc
      cases hl : lstrip line with
      | nil => rw [hl] at hh; simp at hh
      | cons c0 t =>
        rw [hl] at hh
        simp only [List.head?_cons, Option.some.injEq] at hh
        subst hh
        have : leadQuote line = (c0 == '\'' || c0 == '"') := by
          unfold leadQuote
          rw [hl]
        rw [this] at hq
        constructor <;> intro hcq <;> subst hcq <;> simp at hq

/-- C9 at a concrete input: the line `"x \t"` matches and comes back as the
bare `"x"`, trimmed and unquoted. -/
theorem C9_witness :
    "x".data.dropWhile isWS = "x".data ∧
    "x".data.reverse.dropWhile isWS = "x".data.reverse ∧
    (∀ c, "x".data.head? = some c → c ≠ '\'' ∧ c ≠ '"') ∧
    (∃ text, idUnparse "x \t".data = Except.ok text ∧
      ∃ line ∈ splitLines text, leadQuote line = false ∧
        litMatch "x".data line = true ∧ "x".data = strip line) := by
  have h := C9_result_stripped_unquoted litMatch idUnparse "x".data
    "x \t".data none none "x".data rfl
  exact h

/-- C5 at a concrete disarmed state: the stop line is scanned past. -/
theorem C5_witness :
    findLineNumberAux litMatch "ndl".data (some "start".data) (some "stp".data)
      false [(1, "stp".data)]
      = findLineNumberAux litMatch "ndl".data (some "start".data)
          (some "stp".data) false [] :=
  (C5_stop_ignored_while_disarmed litMatch "ndl".data (some "start".data)
      (some "stp".data)).1 1 "stp".data [] (by decide) (by decide) (by decide)

end Tcex
